import Mathlib

/-!
Verification of the PyAPNs2 client core against its specification.

The development shallowly embeds the two source files of the repository:

* `src/apns2/credentials.py` — the credential strategies.  The base class
  `Credentials` yields no authorization header; `CertificateCredentials`
  inherits that behaviour; `TokenCredentials` signs a JWT claim set and
  caches the resulting token in a single slot together with its issue time.
  Wall-clock time (Python `time.time()`) is passed explicitly as a `now : Nat`
  argument; the external signing primitive (`jwt.encode`) is passed explicitly
  as a function `SignInput → String`.  Stateful methods return the updated
  credential record together with the number of signing invocations they
  performed, so that cache hits and regenerations are observable.

* `src/apns2/client.py` — the client.  Host and port selection, the request
  path, the header assembly of `send_notification`, and the compact JSON
  serialisation (`json.dumps` with separators comma and colon and
  `ensure_ascii=False`) are embedded as pure functions.
-/

/-! ## Embedding of src/apns2/credentials.py -/

/-- Module constant `DEFAULT_TOKEN_LIFETIME = 3600` (credentials.py line 8). -/
def DEFAULT_TOKEN_LIFETIME : Nat := 3600

/-- Module constant `DEFAULT_TOKEN_ENCRYPTION_ALGORITHM` (credentials.py line 9). -/
def DEFAULT_TOKEN_ENCRYPTION_ALGORITHM : String := "ES256"

/-- Base class method `Credentials.get_authorization_header` (credentials.py
lines 23-24): `return None`, whatever the topic. -/
def Credentials.get_authorization_header ( topic : Option String) : Option String :=
  none

/-- `CertificateCredentials` (credentials.py lines 28-33): holds only the TLS
material given to its constructor; it overrides nothing, so header production
is inherited from the base class. -/
structure CertificateCredentials where
  cert_file : Option String
  password : Option String
  cert_chain : Option String
deriving DecidableEq, Repr

/-- Method resolution for `get_authorization_header` on a
`CertificateCredentials` object: the inherited base-class body. -/
def CertificateCredentials.get_authorization_header
    (c : CertificateCredentials) (topic : Option String) : Option String :=
  Credentials.get_authorization_header topic

/-- The argument record of one call to the external signing primitive
`jwt.encode(token_dict, key, algorithm, headers)` as assembled in
`TokenCredentials._get_or_create_topic_token` (credentials.py lines 73-85):
the claim set holds `iss` and `iat`, the JOSE header holds `alg` and `kid`. -/
structure SignInput where
  claims_iss : String
  claims_iat : Nat
  key : String
  algorithm : String
  header_alg : String
  header_kid : String
deriving DecidableEq, Repr

/-- State of a `TokenCredentials` object (credentials.py lines 38-51): the
fields set by `__init__`, plus the single-slot cache `__jwt_token`, which is
`None` or a pair of issue time and token text. -/
structure TokenCredentials where
  auth_key : String
  auth_key_id : String
  team_id : String
  encryption_algorithm : String
  token_lifetime : Nat
  jwt_token : Option (Nat × String)
deriving DecidableEq, Repr

/-- Failure of the host file-open call inside
`TokenCredentials._get_signing_key` (Python raises `FileNotFoundError`, a
subclass of `OSError`, when `open` is given a path that names no readable
file).  No `ConfigurationError` class exists anywhere in the source. -/
inductive KeyLoadError where
  | fileNotFound (path : String) : KeyLoadError
deriving DecidableEq, Repr

/-- Static method `TokenCredentials._get_signing_key` (credentials.py lines
61-67).  `secret = ''; if key_path: open(key_path).read()`.  A falsy path
(`None` or the empty string) silently yields the empty secret; a truthy path
is opened, which fails with a host file error when the file is absent.  The
file system is passed explicitly as a partial map from paths to contents. -/
def TokenCredentials._get_signing_key (fs : String → Option String)
    (key_path : Option String) : Except KeyLoadError String :=
  match key_path with
  | none => Except.ok ""
  | some p =>
    if p = "" then Except.ok ""
    else
      match fs p with
      | some contents => Except.ok contents
      | none => Except.error (KeyLoadError.fileNotFound p)

/-- Static method `TokenCredentials._is_expired_token` (credentials.py lines
57-59): `time.time() > issue_date + DEFAULT_TOKEN_LIFETIME`.  Note that the
comparison uses the module constant, not any per-object lifetime; the method
is static and receives no object state at all. -/
def TokenCredentials._is_expired_token (issue_date : Nat) (now : Nat) : Bool :=
  now > issue_date + DEFAULT_TOKEN_LIFETIME

/-- The token-creation branch of
`TokenCredentials._get_or_create_topic_token` (credentials.py lines 72-89):
build the claim set from `team_id` and the current time, build the JOSE
header from the algorithm and key id, invoke the signing primitive, cache the
pair of issue time and token, and return the token.  The third component
counts signing invocations (here exactly one). -/
def TokenCredentials._create_token (jwtEncode : SignInput → String)
    (c : TokenCredentials) (now : Nat) : String × TokenCredentials × Nat :=
  let issued_at := now
  let jwt_token := jwtEncode
    { claims_iss := c.team_id
      claims_iat := issued_at
      key := c.auth_key
      algorithm := c.encryption_algorithm
      header_alg := c.encryption_algorithm
      header_kid := c.auth_key_id }
  (jwt_token, { c with jwt_token := some (issued_at, jwt_token) }, 1)

/-- Method `TokenCredentials._get_or_create_topic_token` (credentials.py
lines 69-92): if the cache is `None` or the cached issue time tests expired,
run the creation branch; otherwise return the cached token unchanged with
zero signing invocations.  The `topic` argument is accepted and ignored, as
in the source. -/
def TokenCredentials._get_or_create_topic_token (jwtEncode : SignInput → String)
    (c : TokenCredentials) ( topic : Option String) (now : Nat) :
    String × TokenCredentials × Nat :=
  match c.jwt_token with
  | none => TokenCredentials._create_token jwtEncode c now
  | some token_pair =>
    if TokenCredentials._is_expired_token token_pair.1 now then
      TokenCredentials._create_token jwtEncode c now
    else
      (token_pair.2, c, 0)

/-- Method `TokenCredentials.get_authorization_header` (credentials.py lines
53-55): obtain the token and return the string formatting
`bearer %s` applied to it. -/
def TokenCredentials.get_authorization_header (jwtEncode : SignInput → String)
    (c : TokenCredentials) (topic : Option String) (now : Nat) :
    String × TokenCredentials × Nat :=
  let r := TokenCredentials._get_or_create_topic_token jwtEncode c topic now
  ("bearer " ++ r.1, r.2.1, r.2.2)

/-! ## Embedding of src/apns2/client.py -/

/-- Enum `NotificationPriority` (client.py lines 8-10). -/
inductive NotificationPriority where
  | Immediate : NotificationPriority
  | Delayed : NotificationPriority
deriving DecidableEq, Repr

/-- The numeric value of each `NotificationPriority` member. -/
def NotificationPriority.value : NotificationPriority → Nat
  | NotificationPriority.Immediate => 10
  | NotificationPriority.Delayed => 5

/-- Host selection in `APNsClient.__init__` (client.py line 15). -/
def apns_server (use_sandbox : Bool) : String :=
  if use_sandbox then "api.development.push.apple.com" else "api.push.apple.com"

/-- Port selection in `APNsClient.__init__` (client.py line 16). -/
def apns_port (use_alternate_port : Bool) : Nat :=
  if use_alternate_port then 2197 else 443

/- JSON values, as produced by `Notification.dict()` and consumed by
`json.dumps`.  List and field-list shapes are separate inductives so that the
serialiser below is structurally recursive. -/
mutual

inductive Json where
  | null : Json
  | bool (b : Bool) : Json
  | num (n : Int) : Json
  | str (s : String) : Json
  | arr (elems : JsonList) : Json
  | obj (fields : JsonFields) : Json

inductive JsonList where
  | nil : JsonList
  | cons (hd : Json) (tl : JsonList) : JsonList

inductive JsonFields where
  | nil : JsonFields
  | cons (key : String) (val : Json) (tl : JsonFields) : JsonFields

end

/-- Escaping of one character by `json.dumps` with `ensure_ascii=False`: the
backslash, the double quote and the named control characters get two-character
escapes, any other character below code point 32 gets a four-digit `\u`
escape, and every other character — non-ASCII included — is kept verbatim. -/
def escapeChar (c : Char) : String :=
  if c = '\\' then "\\\\"
  else if c = '"' then "\\\""
  else if c = '\n' then "\\n"
  else if c = '\r' then "\\r"
  else if c = '\t' then "\\t"
  else if c.toNat = 8 then "\\b"
  else if c.toNat = 12 then "\\f"
  else if c.toNat < 32 then
    "\\u00" ++ String.mk [hexDigit (c.toNat / 16), hexDigit (c.toNat % 16)]
  else c.toString
where
  hexDigit (d : Nat) : Char :=
    if d < 10 then Char.ofNat (48 + d) else Char.ofNat (87 + d)

/-- A JSON string literal: the escaped characters between double quotes. -/
def escapeString (s : String) : String :=
  "\"" ++ String.join (s.data.map escapeChar) ++ "\""

/- Compact serialisation, `json.dumps(value, ensure_ascii=False,
separators=(',', ':'))` as called in `APNsClient.send_notification`
(client.py line 22): item separator a bare comma, key separator a bare colon,
no whitespace anywhere. -/
mutual

def dumps : Json → String
  | Json.null => "null"
  | Json.bool b => if b then "true" else "false"
  | Json.num n => toString n
  | Json.str s => escapeString s
  | Json.arr elems => "[" ++ dumpsElems elems ++ "]"
  | Json.obj fields => "\x7b" ++ dumpsFields fields ++ "\x7d"

def dumpsElems : JsonList → String
  | JsonList.nil => ""
  | JsonList.cons hd JsonList.nil => dumps hd
  | JsonList.cons hd tl => dumps hd ++ "," ++ dumpsElems tl

def dumpsFields : JsonFields → String
  | JsonFields.nil => ""
  | JsonFields.cons k v JsonFields.nil => escapeString k ++ ":" ++ dumps v
  | JsonFields.cons k v tl => escapeString k ++ ":" ++ dumps v ++ "," ++ dumpsFields tl

end

/-- The request body of `APNsClient.send_notification` (client.py line 22):
the compact JSON text of the notification payload (its UTF-8 bytes are what
goes on the wire; UTF-8 encoding is injective, so the text determines the
bytes). -/
def json_payload (notification_dict : Json) : String :=
  dumps notification_dict

/-- The request path of `APNsClient.send_notification` (client.py line 28):
the format string `/3/device/` followed by the device token text verbatim. -/
def request_url (token_hex : String) : String :=
  "/3/device/" ++ token_hex

/-- Header assembly of `APNsClient.send_notification` (client.py lines
23-26): start from the empty dict; when the topic argument is truthy (a
non-empty string, by Python truthiness), add the `apns-topic` entry; nothing
else is ever added.  The method has no priority parameter and never consults
any authorization source. -/
def send_headers : Option String → List (String × String)
  | none => []
  | some t => if t = "" then [] else [("apns-topic", t)]

/-! ## Concrete test stand -/

/-- Decimal digit character. -/
def decDigit (n : Nat) : Char :=
  Char.ofNat (48 + n % 10)

/-- Four-digit decimal rendering of a number below 10000, used to build a
timestamp-sensitive stand-in for the signing primitive. -/
def dec4 (n : Nat) : String :=
  String.mk [decDigit (n / 1000), decDigit (n / 100), decDigit (n / 10), decDigit n]

/-- A timestamp-sensitive model of the external signing primitive: the token
text embeds the `iat` claim, so tokens signed at different times differ. -/
def signStamp (si : SignInput) : String :=
  "tok-" ++ dec4 si.claims_iat

/-- A `TokenCredentials` object constructed with `token_lifetime = 10` whose
cache holds a token issued at time 0. -/
def c1creds : TokenCredentials :=
  { auth_key := "secretkeymaterial"
    auth_key_id := "KEYID12345"
    team_id := "TEAMID1234"
    encryption_algorithm := "ES256"
    token_lifetime := 10
    jwt_token := some (0, "tok-0000") }

/-- A `TokenCredentials` object constructed with `token_lifetime = 0` and an
empty cache. -/
def c2creds : TokenCredentials :=
  { auth_key := "secretkeymaterial"
    auth_key_id := "KEYID12345"
    team_id := "TEAMID1234"
    encryption_algorithm := "ES256"
    token_lifetime := 0
    jwt_token := none }

/-- A `TokenCredentials` object constructed with `token_lifetime = 3602` and
an empty cache. -/
def c3creds : TokenCredentials :=
  { auth_key := "secretkeymaterial"
    auth_key_id := "KEYID12345"
    team_id := "TEAMID1234"
    encryption_algorithm := "ES256"
    token_lifetime := 3602
    jwt_token := none }

/-- A `TokenCredentials` object constructed with `token_lifetime = 20` whose
cache holds a token issued at time 0. -/
def c4creds : TokenCredentials :=
  { auth_key := "secretkeymaterial"
    auth_key_id := "KEYID12345"
    team_id := "TEAMID1234"
    encryption_algorithm := "ES256"
    token_lifetime := 20
    jwt_token := some (0, "tok-0000") }

/-- A `TokenCredentials` object with the default lifetime and an empty
cache. -/
def demoCreds : TokenCredentials :=
  { auth_key := "secretkeymaterial"
    auth_key_id := "KEYID12345"
    team_id := "TEAMID1234"
    encryption_algorithm := "ES256"
    token_lifetime := 3600
    jwt_token := none }

/-! ## Claims -/

/-- Claim C1: the spec asserts that the validity test is parameterised on the
lifetime the object was constructed with, so a token is never returned once
its age exceeds that configured lifetime.  The code violates this: with
`token_lifetime = 10` and a cached token issued at time 0, the call at time
100 returns the cached token (age 100, far beyond the configured lifetime)
with zero signing invocations, because `_is_expired_token` compares against
the module constant `DEFAULT_TOKEN_LIFETIME = 3600` and ignores the stored
`token_lifetime` field. -/
theorem expiry_check_ignores_configured_lifetime :
    100 - 0 > c1creds.token_lifetime
    ∧ (TokenCredentials._get_or_create_topic_token signStamp c1creds
        (some "com.example.app") 100).1 = "tok-0000"
    ∧ (TokenCredentials._get_or_create_topic_token signStamp c1creds
        (some "com.example.app") 100).2.2 = 0 := by
  decide

/-- Claim C2: the spec asserts that with `token_lifetime = 0` every call
regenerates the token.  The code violates this: after a first call at time 0
fills the cache, a second call at time 1 performs zero signing invocations,
returns the identical token and leaves the state unchanged, because the
expiry test uses the module constant 3600 and not the configured lifetime
0. -/
theorem zero_lifetime_does_not_regenerate_every_call :
    c2creds.token_lifetime = 0
    ∧ (let r1 := TokenCredentials._get_or_create_topic_token signStamp c2creds none 0
       let r2 := TokenCredentials._get_or_create_topic_token signStamp r1.2.1 none 1
       r1.2.2 = 1 ∧ r2.2.2 = 0 ∧ r2.1 = r1.1 ∧ r2.2.1 = r1.2.1) := by
  decide

/-- Claim C3: the spec asserts that while the cached token satisfies
`now - issuedAt ≤ lifetime` (the configured lifetime), every call is a cache
hit returning the identical bearer string with no new signing invocation.
The code violates this: with `token_lifetime = 3602`, a token issued at time
0 and a second call at time 3601 (age within the configured lifetime), the
code performs a fresh signing invocation and returns a different bearer
string, because the expiry test uses the module constant 3600. -/
theorem cache_hit_window_ignores_configured_lifetime :
    (let r1 := TokenCredentials.get_authorization_header signStamp c3creds
        (some "com.example.app") 0
     let r2 := TokenCredentials.get_authorization_header signStamp r1.2.1
        (some "com.example.app") 3601
     r1.2.1.jwt_token = some (0, "tok-0000")
     ∧ 3601 - 0 ≤ c3creds.token_lifetime
     ∧ r2.2.2 = 1
     ∧ r2.1 ≠ r1.1) := by
  decide

/-- Claim C4: the spec asserts that when the cached token is older than the
configured lifetime, the next call performs exactly one new signing
invocation, replaces the cache and returns a fresh value.  The code violates
this: with `token_lifetime = 20` and a cached token issued at time 0, the
call at time 50 (age 50 beyond the configured lifetime) performs zero
signing invocations, keeps the cache unchanged and returns the old cached
value, because the expiry test uses the module constant 3600. -/
theorem regeneration_trigger_ignores_configured_lifetime :
    50 - 0 > c4creds.token_lifetime
    ∧ (TokenCredentials._get_or_create_topic_token signStamp c4creds none 50).2.2 = 0
    ∧ (TokenCredentials._get_or_create_topic_token signStamp c4creds none 50).2.1 = c4creds
    ∧ (TokenCredentials._get_or_create_topic_token signStamp c4creds none 50).1 = "tok-0000" := by
  decide

/-- Claim C5 counterexample: the claim asserts that a missing key-file path
makes construction fail rather than silently producing an empty key.  In the
code, `_get_signing_key` with path `None` succeeds and returns the empty
secret, whatever the file system contains. -/
theorem missing_key_path_silently_yields_empty_key :
    TokenCredentials._get_signing_key (fun _ => none) none = Except.ok "" := by
  rfl

/-- Claim C5 as amended: a falsy key-file path (`None`) silently yields an
empty signing key with no construction-time failure, deferring any failure
to the first signing call; a truthy path naming a nonexistent file fails at
key-load time, but with the host file-open error, not with a
`ConfigurationError` class, which does not exist in the code. -/
theorem key_load_failure_behaviour :
    (∀ fs : String → Option String,
      TokenCredentials._get_signing_key fs none = Except.ok "")
    ∧ TokenCredentials._get_signing_key (fun _ => none) (some "AuthKey_KEYID12345.p8")
        = Except.error (KeyLoadError.fileNotFound "AuthKey_KEYID12345.p8") :=
  ⟨fun _ => rfl, rfl⟩

/-- Claim C6: header assembly of `send_notification`.  The `apns-topic`
entry is present exactly when a non-empty topic is supplied (Python
truthiness of the `topic` argument); the `authorization` entry is present
exactly when the credential behaviour bound to this client — certificate
identity, whose `get_authorization_header` is the base-class body — yields a
value, which is never; no priority entry and no other entry is ever added
(the method accepts no priority argument). -/
theorem send_headers_assembly (topic : Option String) :
    (("apns-topic" ∈ (send_headers topic).map Prod.fst) ↔ ∃ t, topic = some t ∧ t ≠ "")
    ∧ (("authorization" ∈ (send_headers topic).map Prod.fst)
        ↔ (Credentials.get_authorization_header topic).isSome = true)
    ∧ ("apns-priority" ∉ (send_headers topic).map Prod.fst)
    ∧ ((send_headers topic).map Prod.fst = ["apns-topic"]
        ∨ (send_headers topic).map Prod.fst = []) := by
  match topic with
  | none => simp [send_headers, Credentials.get_authorization_header]
  | some t =>
    by_cases h : t = "" <;>
      simp [send_headers, Credentials.get_authorization_header, h]

/-- Claim C6 witness: evaluation of the header-assembly theorem at a
concrete topic. -/
theorem send_headers_assembly_witness :
    ("apns-topic" ∈ (send_headers (some "com.example.app")).map Prod.fst)
      ↔ ∃ t, (some "com.example.app" : Option String) = some t ∧ t ≠ "" :=
  (send_headers_assembly (some "com.example.app")).1

/-- Claim C7: the request path is the literal `/3/device/` followed by the
device-token text verbatim, and the request body is the compact JSON text of
the payload — no added whitespace, non-ASCII characters kept verbatim — as
shown on the two concrete round-trip examples of the spec. -/
theorem request_path_and_compact_body :
    (∀ token_hex : String, request_url token_hex = "/3/device/" ++ token_hex)
    ∧ request_url "abc123" = "/3/device/abc123"
    ∧ json_payload (Json.obj (JsonFields.cons "aps"
        (Json.obj (JsonFields.cons "alert" (Json.str "hi") JsonFields.nil))
        JsonFields.nil)) = "\x7b\"aps\":\x7b\"alert\":\"hi\"\x7d\x7d"
    ∧ json_payload (Json.obj (JsonFields.cons "alert" (Json.str "héllo")
        JsonFields.nil)) = "\x7b\"alert\":\"héllo\"\x7d" :=
  ⟨fun _ => rfl, rfl, by decide, by decide⟩

/-- Claim C8: for every signing primitive, credential state, topic and time,
the value returned by `get_authorization_header` is the literal lowercase
`bearer ` followed by exactly the token text held in the cache slot after
the call (the freshly signed token on a miss, the cached one on a hit). -/
theorem bearer_header_format (jwtEncode : SignInput → String)
    (c : TokenCredentials) (topic : Option String) (now : Nat) :
    ∃ issued tokenText,
      (TokenCredentials.get_authorization_header jwtEncode c topic now).1
        = "bearer " ++ tokenText
      ∧ (TokenCredentials.get_authorization_header jwtEncode c topic now).2.1.jwt_token
        = some (issued, tokenText) := by
  unfold TokenCredentials.get_authorization_header
    TokenCredentials._get_or_create_topic_token
  rcases hc : c.jwt_token with _ | ⟨issued0, tok0⟩
  · exact ⟨now, _, rfl, rfl⟩
  · by_cases hexp : TokenCredentials._is_expired_token issued0 now
    · simp only [hexp, if_true]
      exact ⟨now, _, rfl, rfl⟩
    · simp only [hexp, if_false]
      exact ⟨issued0, tok0, rfl, hc⟩

/-- Claim C8 witness: evaluation of the bearer-format theorem at a concrete
signing primitive, credential state, topic and time. -/
theorem bearer_header_format_witness :
    ∃ issued tokenText,
      (TokenCredentials.get_authorization_header signStamp demoCreds
        (some "com.example.app") 0).1 = "bearer " ++ tokenText
      ∧ (TokenCredentials.get_authorization_header signStamp demoCreds
        (some "com.example.app") 0).2.1.jwt_token = some (issued, tokenText) :=
  bearer_header_format signStamp demoCreds (some "com.example.app") 0

/-- Claim C9: the certificate variant yields no authorization value for any
topic, through the base-class body it inherits; the embedding is a pure
constant function of the topic, with no state and no expiry logic. -/
theorem certificate_variant_yields_no_authorization
    (c : CertificateCredentials) (topic : Option String) :
    CertificateCredentials.get_authorization_header c topic = none
    ∧ Credentials.get_authorization_header topic = none :=
  ⟨rfl, rfl⟩

/-- Claim C9 witness: evaluation at a concrete certificate object and the
topic `None`. -/
theorem certificate_variant_yields_no_authorization_witness :
    CertificateCredentials.get_authorization_header
      ⟨some "cert.pem", none, none⟩ none = none
    ∧ Credentials.get_authorization_header none = none :=
  certificate_variant_yields_no_authorization ⟨some "cert.pem", none, none⟩ none

/-- Claim C10: `use_sandbox` selects between the development and production
hosts, `use_alternate_port` selects between 2197 and 443, and the four
resulting pairs are the only host-port combinations the constructor can
produce. -/
theorem host_and_port_selection :
    apns_server true = "api.development.push.apple.com"
    ∧ apns_server false = "api.push.apple.com"
    ∧ apns_port true = 2197
    ∧ apns_port false = 443
    ∧ ∀ s a : Bool, (apns_server s, apns_port a) ∈
        [("api.development.push.apple.com", 2197),
         ("api.development.push.apple.com", 443),
         ("api.push.apple.com", 2197),
         ("api.push.apple.com", 443)] := by
  decide
